import Mathlib

/-!
Shallow embedding of the geckoterminal_api Python client
(geckoterminal_api/api.py): request construction, the accept header, the
page and address guards applied as decorators, and the response dispatch of
the internal request executor. Each definition is translated from the
source file; the exception class is modelled from the spec because its
defining module is not among the provided sources.
-/

/-- Value of one entry of the Python params dict handed to the transport:
a string, an integer, or the Python value None. -/
inductive PyParam where
  | str (v : String)
  | int (v : Int)
  | none
deriving DecidableEq

/-- Modelled from the spec: the exception class GeckoTerminalAPIError (the
spec calls it ClientError) lives in geckoterminal_api/exceptions.py, a module
that is not among the provided source files. Per the spec it carries the HTTP
status code and the raw response body text; api.py raises it with keyword
arguments status and err in _get. -/
structure GeckoTerminalAPIError where
  status : Nat
  err : String
deriving DecidableEq

/-- JSON value as produced by response.json of the transport. The client
returns it without inspecting it, so the embedding needs only a value type
that the client never looks into. -/
inductive Json where
  | null
  | bool (b : Bool)
  | num (n : Int)
  | str (s : String)
  | arr (elems : List Json)
  | obj (fields : List (String × Json))

/-- Client state fixed at construction: the optional api_version string
stored by the constructor. The base url and the timeout are fixed
constants. -/
structure GeckoTerminalAPI where
  api_version : Option String

/-- Fixed base url assigned in the constructor. -/
def base_url : String := "https://api.geckoterminal.com/api/v2"

/-- Accept header computed inside _get from self.api_version alone, using
Python truthiness: None and the empty string both select the plain media
type, any other string is interpolated into the versioned media type. -/
def acceptHeader (api : GeckoTerminalAPI) : String :=
  match api.api_version with
  | Option.some v =>
      if v == "" then "application/json" else "application/json;version=" ++ v
  | Option.none => "application/json"

/-- Outgoing GET request as assembled by _get just before it reaches the
transport. -/
structure Request where
  url : String
  accept : String
  params : List (String × PyParam)
  timeout : Nat
deriving DecidableEq

/-- Request assembly performed by _get: concatenation of the base url and
the endpoint path, the accept header, the caller params and the fixed 30
second timeout. -/
def GeckoTerminalAPI.buildRequest (api : GeckoTerminalAPI) (endpoint : String)
    (params : List (String × PyParam)) : Request :=
  Request.mk (base_url ++ endpoint) (acceptHeader api) params 30

/-- HTTP response as seen by _get: the status code, the raw body text, and
the JSON decoding of the body. -/
structure HTTPResponse where
  status_code : Nat
  text : String
  json : Json

/-- Response dispatch of _get: one transport round trip, then either the
decoded JSON body when the status code is 200, or a GeckoTerminalAPIError
carrying the status code and the raw body text on any other status. The
transport is consulted exactly once, so there is no retry and no partial
result. -/
def GeckoTerminalAPI.rawGet (api : GeckoTerminalAPI) (endpoint : String)
    (params : List (String × PyParam)) (transport : Request → HTTPResponse) :
    Except GeckoTerminalAPIError Json :=
  let response := transport (api.buildRequest endpoint params)
  if response.status_code = 200 then Except.ok response.json
  else Except.error (GeckoTerminalAPIError.mk response.status_code response.text)

/-- Query-string serialization performed by the transport collaborator (the
requests library) on the params dict: entries whose value is None are
dropped, string values pass through, integer values are rendered as
text. -/
def serializeParams : List (String × PyParam) → List (String × String)
  | [] => []
  | (k, PyParam.str v) :: rest => (k, v) :: serializeParams rest
  | (k, PyParam.int v) :: rest => (k, toString v) :: serializeParams rest
  | (_, PyParam.none) :: rest => serializeParams rest

/-- Lookup of a key in the ordered params list, mirroring access to the
params dict. -/
def getParam (ps : List (String × PyParam)) (k : String) : Option PyParam :=
  Option.map Prod.snd (List.find? (fun p => p.1 == k) ps)

/-- Warning text emitted by validate_page. -/
def pageWarningMsg (page : Int) : String :=
  "Maximum 10 pages allowed, " ++ toString page ++ " provided"

/-- Warning text emitted by validate_addresses; the count it interpolates is
whatever the wrapper measured, which need not be the address count. -/
def addressesWarningMsg (n : Nat) : String :=
  "Maximum 30 addresses allowed, " ++ toString n ++ " provided"

/-- Body of the validate_page decorator: warn exactly when the keyword
argument page is present and greater than 10; the wrapped call proceeds
unchanged either way. The argument is some p when page was passed by keyword
with value p and Option.none when page was passed positionally or left to
its default. -/
def validate_page_check (pageKw : Option Int) : List String :=
  match pageKw with
  | Option.some p => if p > 10 then [pageWarningMsg p] else []
  | Option.none => []

/-- Outcome of the validate_addresses wrapper body, run before the wrapped
method. -/
inductive AddrGuardOutcome where
  | proceed (warnings : List String)
  | indexError
deriving DecidableEq

/-- Body of the validate_addresses decorator: when the keyword argument
addresses is present with more than 30 elements, it emits a warning whose
count is the len of the second positional argument of the call, the network
string when network was passed positionally; when fewer than two positional
arguments were supplied that subscript raises IndexError and the wrapped
method never runs. positionalAfterSelf lists the positional arguments that
follow self. -/
def validate_addresses_check (addressesKw : Option (List String))
    (positionalAfterSelf : List String) : AddrGuardOutcome :=
  match addressesKw with
  | Option.some addrs =>
      if addrs.length > 30 then
        match positionalAfterSelf with
        | [] => AddrGuardOutcome.indexError
        | a :: _ => AddrGuardOutcome.proceed [addressesWarningMsg a.length]
      else AddrGuardOutcome.proceed []
  | Option.none => AddrGuardOutcome.proceed []

/-- Application of the page-guard decorator at call time: guarded mirrors
whether the method carries validate_page in the source, and pageKw is some p
exactly when the caller passed page by keyword. -/
def applyPageGuard (guarded : Bool) (pageKw : Option Int) (req : Request) :
    List String × Request :=
  (if guarded then validate_page_check pageKw else [], req)

/-- Keyword view of the page argument of a call. -/
def pageKwOf (pageByKeyword : Bool) (page : Int) : Option Int :=
  if pageByKeyword then Option.some page else Option.none

/-- Endpoint networks: list of supported networks. -/
def GeckoTerminalAPI.networks (api : GeckoTerminalAPI) (page : Int) : Request :=
  api.buildRequest "/networks" [("page", PyParam.int page)]

/-- Endpoint dexes: list of supported dexes on a network. -/
def GeckoTerminalAPI.dexes (api : GeckoTerminalAPI) (network : String)
    (page : Int) : Request :=
  api.buildRequest ("/networks/" ++ network ++ "/dexes")
    [("page", PyParam.int page)]

/-- Endpoint trending_pools: trending pools across all networks; omitted
include defaults to base_token, quote_token, dex, network. -/
def GeckoTerminalAPI.trending_pools (api : GeckoTerminalAPI)
    (inc : Option (List String)) (page : Int) : Request :=
  let inc := inc.getD ["base_token", "quote_token", "dex", "network"]
  api.buildRequest "/networks/trending_pools"
    [("include", PyParam.str (String.intercalate "," inc)),
     ("page", PyParam.int page)]

/-- Endpoint network_trending_pools: trending pools on a network; omitted
include defaults to base_token, quote_token, dex. -/
def GeckoTerminalAPI.network_trending_pools (api : GeckoTerminalAPI)
    (network : String) (inc : Option (List String)) (page : Int) : Request :=
  let inc := inc.getD ["base_token", "quote_token", "dex"]
  api.buildRequest ("/networks/" ++ network ++ "/trending_pools")
    [("include", PyParam.str (String.intercalate "," inc)),
     ("page", PyParam.int page)]

/-- Endpoint network_pool_address: one specific pool on a network. -/
def GeckoTerminalAPI.network_pool_address (api : GeckoTerminalAPI)
    (network : String) (address : String) (inc : Option (List String)) :
    Request :=
  let inc := inc.getD ["base_token", "quote_token", "dex"]
  api.buildRequest ("/networks/" ++ network ++ "/pools/" ++ address)
    [("include", PyParam.str (String.intercalate "," inc))]

/-- Endpoint network_pools_multi_address: several pools on a network, the
addresses joined into the path with the percent separator. -/
def GeckoTerminalAPI.network_pools_multi_address (api : GeckoTerminalAPI)
    (network : String) (addresses : List String)
    (inc : Option (List String)) : Request :=
  let inc := inc.getD ["base_token", "quote_token", "dex"]
  api.buildRequest
    ("/networks/" ++ network ++ "/pools/multi/" ++
      String.intercalate "%" addresses)
    [("include", PyParam.str (String.intercalate "," inc))]

/-- Endpoint network_pools: top pools on a network. -/
def GeckoTerminalAPI.network_pools (api : GeckoTerminalAPI) (network : String)
    (inc : Option (List String)) (page : Int) : Request :=
  let inc := inc.getD ["base_token", "quote_token", "dex"]
  api.buildRequest ("/networks/" ++ network ++ "/pools")
    [("include", PyParam.str (String.intercalate "," inc)),
     ("page", PyParam.int page)]

/-- Endpoint network_dex_pools: top pools on one dex of a network. -/
def GeckoTerminalAPI.network_dex_pools (api : GeckoTerminalAPI)
    (network : String) (dex : String) (inc : Option (List String))
    (page : Int) : Request :=
  let inc := inc.getD ["base_token", "quote_token", "dex"]
  api.buildRequest ("/networks/" ++ network ++ "/dexes/" ++ dex ++ "/pools")
    [("include", PyParam.str (String.intercalate "," inc)),
     ("page", PyParam.int page)]

/-- Endpoint network_new_pools: new pools on a network. -/
def GeckoTerminalAPI.network_new_pools (api : GeckoTerminalAPI)
    (network : String) (inc : Option (List String)) (page : Int) : Request :=
  let inc := inc.getD ["base_token", "quote_token", "dex"]
  api.buildRequest ("/networks/" ++ network ++ "/new_pools")
    [("include", PyParam.str (String.intercalate "," inc)),
     ("page", PyParam.int page)]

/-- Endpoint new_pools: new pools across all networks; omitted include
defaults to base_token, quote_token, dex, network. -/
def GeckoTerminalAPI.new_pools (api : GeckoTerminalAPI)
    (inc : Option (List String)) (page : Int) : Request :=
  let inc := inc.getD ["base_token", "quote_token", "dex", "network"]
  api.buildRequest "/networks/new_pools"
    [("include", PyParam.str (String.intercalate "," inc)),
     ("page", PyParam.int page)]

/-- Endpoint search_network_pool: pool search; the network query parameter
is the optional argument itself, so it is None in the params dict when the
caller omits it. -/
def GeckoTerminalAPI.search_network_pool (api : GeckoTerminalAPI)
    (query : String) (network : Option String) (inc : Option (List String))
    (page : Int) : Request :=
  let inc := inc.getD ["base_token", "quote_token", "dex"]
  api.buildRequest "/search/pools"
    [("query", PyParam.str query),
     ("network",
       match network with
       | Option.some n => PyParam.str n
       | Option.none => PyParam.none),
     ("include", PyParam.str (String.intercalate "," inc)),
     ("page", PyParam.int page)]

/-- Endpoint network_addresses_token_price: current USD prices of several
tokens, the addresses joined into the path with the percent separator; no
query parameters. -/
def GeckoTerminalAPI.network_addresses_token_price (api : GeckoTerminalAPI)
    (network : String) (addresses : List String) : Request :=
  api.buildRequest
    ("/simple/networks/" ++ network ++ "/token_price/" ++
      String.intercalate "%" addresses)
    []

/-- Call of networks through the decorator layer: the method carries no page
guard in the source. -/
def networks_invoke (api : GeckoTerminalAPI) (page : Int)
    (pageByKeyword : Bool) : List String × Request :=
  applyPageGuard false (pageKwOf pageByKeyword page) (api.networks page)

/-- Call of dexes through the decorator layer: no page guard in the
source. -/
def dexes_invoke (api : GeckoTerminalAPI) (network : String) (page : Int)
    (pageByKeyword : Bool) : List String × Request :=
  applyPageGuard false (pageKwOf pageByKeyword page) (api.dexes network page)

/-- Call of trending_pools through its validate_page decorator. -/
def trending_pools_invoke (api : GeckoTerminalAPI) (inc : Option (List String))
    (page : Int) (pageByKeyword : Bool) : List String × Request :=
  applyPageGuard true (pageKwOf pageByKeyword page)
    (api.trending_pools inc page)

/-- Call of network_trending_pools through its validate_page decorator. -/
def network_trending_pools_invoke (api : GeckoTerminalAPI) (network : String)
    (inc : Option (List String)) (page : Int) (pageByKeyword : Bool) :
    List String × Request :=
  applyPageGuard true (pageKwOf pageByKeyword page)
    (api.network_trending_pools network inc page)

/-- Call of network_pools through the decorator layer: no page guard in the
source. -/
def network_pools_invoke (api : GeckoTerminalAPI) (network : String)
    (inc : Option (List String)) (page : Int) (pageByKeyword : Bool) :
    List String × Request :=
  applyPageGuard false (pageKwOf pageByKeyword page)
    (api.network_pools network inc page)

/-- Call of network_dex_pools through the decorator layer: no page guard in
the source. -/
def network_dex_pools_invoke (api : GeckoTerminalAPI) (network : String)
    (dex : String) (inc : Option (List String)) (page : Int)
    (pageByKeyword : Bool) : List String × Request :=
  applyPageGuard false (pageKwOf pageByKeyword page)
    (api.network_dex_pools network dex inc page)

/-- Call of network_new_pools through its validate_page decorator. -/
def network_new_pools_invoke (api : GeckoTerminalAPI) (network : String)
    (inc : Option (List String)) (page : Int) (pageByKeyword : Bool) :
    List String × Request :=
  applyPageGuard true (pageKwOf pageByKeyword page)
    (api.network_new_pools network inc page)

/-- Call of new_pools through its validate_page decorator. -/
def new_pools_invoke (api : GeckoTerminalAPI) (inc : Option (List String))
    (page : Int) (pageByKeyword : Bool) : List String × Request :=
  applyPageGuard true (pageKwOf pageByKeyword page) (api.new_pools inc page)

/-- Call of search_network_pool through its validate_page decorator. -/
def search_network_pool_invoke (api : GeckoTerminalAPI) (query : String)
    (network : Option String) (inc : Option (List String)) (page : Int)
    (pageByKeyword : Bool) : List String × Request :=
  applyPageGuard true (pageKwOf pageByKeyword page)
    (api.search_network_pool query network inc page)

/-- Call of network_pools_multi_address through its validate_addresses
decorator. addressesByKeyword records whether addresses was passed by
keyword, which is the only way the guard inspects it; networkByKeyword
records whether network was passed by keyword, which determines whether a
second positional argument exists for the warning to measure. On IndexError
the wrapped method never runs. -/
def network_pools_multi_address_invoke (api : GeckoTerminalAPI)
    (network : String) (addresses : List String) (inc : Option (List String))
    (addressesByKeyword : Bool) (networkByKeyword : Bool) :
    Except Unit (List String × Request) :=
  match validate_addresses_check
      (if addressesByKeyword then Option.some addresses else Option.none)
      (if networkByKeyword then [] else [network]) with
  | AddrGuardOutcome.indexError => Except.error ()
  | AddrGuardOutcome.proceed ws =>
      Except.ok (ws, api.network_pools_multi_address network addresses inc)

/-- Call of network_addresses_token_price through its validate_addresses
decorator, with the same keyword bookkeeping as the multi-address pools
call. -/
def network_addresses_token_price_invoke (api : GeckoTerminalAPI)
    (network : String) (addresses : List String)
    (addressesByKeyword : Bool) (networkByKeyword : Bool) :
    Except Unit (List String × Request) :=
  match validate_addresses_check
      (if addressesByKeyword then Option.some addresses else Option.none)
      (if networkByKeyword then [] else [network]) with
  | AddrGuardOutcome.indexError => Except.error ()
  | AddrGuardOutcome.proceed ws =>
      Except.ok (ws, api.network_addresses_token_price network addresses)

/-- C1: for every endpoint request and every HTTP response obtained from the
transport, _get returns the JSON-decoded response body exactly when the
status code is 200, and on any other status code raises GeckoTerminalAPIError
carrying exactly that status code and the raw body text, after a single
transport round trip with no retry and no partial result. -/
theorem C1_get_dispatch (api : GeckoTerminalAPI) (endpoint : String)
    (params : List (String × PyParam)) (transport : Request → HTTPResponse) :
    ((transport (api.buildRequest endpoint params)).status_code = 200 →
      api.rawGet endpoint params transport =
        Except.ok (transport (api.buildRequest endpoint params)).json) ∧
    ((transport (api.buildRequest endpoint params)).status_code ≠ 200 →
      api.rawGet endpoint params transport =
        Except.error (GeckoTerminalAPIError.mk
          (transport (api.buildRequest endpoint params)).status_code
          (transport (api.buildRequest endpoint params)).text)) := by
  constructor
  · intro h
    simp [GeckoTerminalAPI.rawGet, h]
  · intro h
    simp [GeckoTerminalAPI.rawGet, h]

/-- Witness for C1_get_dispatch at concrete responses with status 200 and
status 429. -/
theorem C1_get_dispatch_witness :
    (GeckoTerminalAPI.mk Option.none).rawGet "/networks" []
        (fun _ => HTTPResponse.mk 200 "body" Json.null) = Except.ok Json.null ∧
    (GeckoTerminalAPI.mk Option.none).rawGet "/networks" []
        (fun _ => HTTPResponse.mk 429 "rate limited" Json.null) =
      Except.error (GeckoTerminalAPIError.mk 429 "rate limited") := by
  constructor
  · exact (C1_get_dispatch (GeckoTerminalAPI.mk Option.none) "/networks" []
      (fun _ => HTTPResponse.mk 200 "body" Json.null)).1 rfl
  · exact (C1_get_dispatch (GeckoTerminalAPI.mk Option.none) "/networks" []
      (fun _ => HTTPResponse.mk 429 "rate limited" Json.null)).2 (by decide)

/-- C2: evaluation of the address guard at failing inputs. With 31 addresses
passed by keyword and network passed positionally as eth, the emitted
warning reports 3 — the character count of the string eth, read from the
second positional argument — instead of the 31 addresses actually provided;
and with network also passed by keyword the guard raises IndexError, so the
call is blocked rather than proceeding. -/
theorem C2_address_guard_bug :
    Except.map Prod.fst
        (network_pools_multi_address_invoke (GeckoTerminalAPI.mk Option.none)
          "eth" (List.replicate 31 "0xaa") Option.none true false) =
      Except.ok ["Maximum 30 addresses allowed, 3 provided"] ∧
    (List.replicate 31 "0xaa").length = 31 ∧
    addressesWarningMsg 3 ≠ addressesWarningMsg 31 ∧
    network_pools_multi_address_invoke (GeckoTerminalAPI.mk Option.none)
        "eth" (List.replicate 31 "0xaa") Option.none true true =
      Except.error () := by
  refine ⟨rfl, rfl, by decide, rfl⟩

/-- C3: every page-guarded endpoint method (trending_pools,
network_trending_pools, network_new_pools, new_pools, search_network_pool)
called with keyword page emits exactly one warning when page exceeds 10 and
none otherwise, and the outgoing request carries the caller-supplied page
value unchanged in both cases. -/
theorem C3_page_guard (api : GeckoTerminalAPI) (network q : String)
    (netOpt : Option String) (inc : Option (List String)) (page : Int) :
    ((trending_pools_invoke api inc page true).1 =
        (if page > 10 then [pageWarningMsg page] else []) ∧
      getParam (trending_pools_invoke api inc page true).2.params "page" =
        Option.some (PyParam.int page)) ∧
    ((network_trending_pools_invoke api network inc page true).1 =
        (if page > 10 then [pageWarningMsg page] else []) ∧
      getParam (network_trending_pools_invoke api network inc page true).2.params
          "page" = Option.some (PyParam.int page)) ∧
    ((network_new_pools_invoke api network inc page true).1 =
        (if page > 10 then [pageWarningMsg page] else []) ∧
      getParam (network_new_pools_invoke api network inc page true).2.params
          "page" = Option.some (PyParam.int page)) ∧
    ((new_pools_invoke api inc page true).1 =
        (if page > 10 then [pageWarningMsg page] else []) ∧
      getParam (new_pools_invoke api inc page true).2.params "page" =
        Option.some (PyParam.int page)) ∧
    ((search_network_pool_invoke api q netOpt inc page true).1 =
        (if page > 10 then [pageWarningMsg page] else []) ∧
      getParam (search_network_pool_invoke api q netOpt inc page true).2.params
          "page" = Option.some (PyParam.int page)) := by
  refine ⟨⟨rfl, rfl⟩, ⟨rfl, rfl⟩, ⟨rfl, rfl⟩, ⟨rfl, rfl⟩, ⟨rfl, ?_⟩⟩
  cases netOpt <;> rfl

/-- C4 counterexample: constructing the client with the empty version
string, which is a configured version string, yields the plain accept header
rather than the versioned media type for that string, because the source
tests truthiness of api_version rather than its presence. -/
theorem C4_empty_version_counterexample :
    ((GeckoTerminalAPI.mk (Option.some "")).buildRequest "/networks" []).accept =
        "application/json" ∧
    "application/json" ≠ "application/json;version=" := by
  exact ⟨rfl, by decide⟩

/-- C4 amended: the accept header of every outgoing request is determined
solely by the api_version fixed at construction and never varies between
calls; it equals the versioned media type exactly when a non-empty version
string was configured, and the plain media type when the version is absent
or is the empty string. -/
theorem C4_accept_header (api : GeckoTerminalAPI) (e₁ e₂ : String)
    (p₁ p₂ : List (String × PyParam)) :
    (api.buildRequest e₁ p₁).accept = (api.buildRequest e₂ p₂).accept ∧
    (∀ v, api.api_version = Option.some v → v ≠ "" →
      (api.buildRequest e₁ p₁).accept = "application/json;version=" ++ v) ∧
    (api.api_version = Option.none →
      (api.buildRequest e₁ p₁).accept = "application/json") ∧
    (api.api_version = Option.some "" →
      (api.buildRequest e₁ p₁).accept = "application/json") := by
  refine ⟨rfl, ?_, ?_, ?_⟩
  · intro v hv hne
    simp [GeckoTerminalAPI.buildRequest, acceptHeader, hv, hne]
  · intro hv
    simp [GeckoTerminalAPI.buildRequest, acceptHeader, hv]
  · intro hv
    simp [GeckoTerminalAPI.buildRequest, acceptHeader, hv]

/-- Witness for C4_accept_header at the documented version 20230302. -/
theorem C4_accept_header_witness :
    ((GeckoTerminalAPI.mk (Option.some "20230302")).buildRequest "/networks"
        []).accept = "application/json;version=20230302" :=
  (C4_accept_header (GeckoTerminalAPI.mk (Option.some "20230302")) "/networks"
    "/networks" [] []).2.1 "20230302" rfl (by decide)

/-- C5: both multi-address endpoints join the caller addresses into a single
path segment with the literal percent separator, in caller-supplied order
with no deduplication, and the concrete call on eth with 0xAA and 0xBB
requests the path /networks/eth/pools/multi/0xAA%0xBB. -/
theorem C5_percent_join (api : GeckoTerminalAPI) (network a b : String)
    (addresses : List String) (inc : Option (List String)) :
    (api.network_pools_multi_address network addresses inc).url =
        base_url ++ ("/networks/" ++ network ++ "/pools/multi/" ++
          String.intercalate "%" addresses) ∧
    (api.network_addresses_token_price network addresses).url =
        base_url ++ ("/simple/networks/" ++ network ++ "/token_price/" ++
          String.intercalate "%" addresses) ∧
    (api.network_pools_multi_address network [a, b] inc).url =
        base_url ++ ("/networks/" ++ network ++ "/pools/multi/" ++
          (a ++ "%" ++ b)) ∧
    (api.network_pools_multi_address network [a, a] inc).url =
        base_url ++ ("/networks/" ++ network ++ "/pools/multi/" ++
          (a ++ "%" ++ a)) ∧
    ((GeckoTerminalAPI.mk Option.none).network_pools_multi_address "eth"
        ["0xAA", "0xBB"] Option.none).url =
      "https://api.geckoterminal.com/api/v2/networks/eth/pools/multi/0xAA%0xBB" := by
  refine ⟨rfl, rfl, rfl, rfl, rfl⟩

/-- C6: with include omitted, the global trending_pools and new_pools
endpoints default to base_token, quote_token, dex, network and the
per-network variants default to base_token, quote_token, dex, comma-joined
in that order; and network_pools on eth with defaults requests
/networks/eth/pools with include base_token,quote_token,dex and page 1. -/
theorem C6_default_include (api : GeckoTerminalAPI) (network : String)
    (page : Int) :
    getParam (api.trending_pools Option.none page).params "include" =
        Option.some (PyParam.str "base_token,quote_token,dex,network") ∧
    getParam (api.new_pools Option.none page).params "include" =
        Option.some (PyParam.str "base_token,quote_token,dex,network") ∧
    getParam (api.network_trending_pools network Option.none page).params
        "include" = Option.some (PyParam.str "base_token,quote_token,dex") ∧
    getParam (api.network_new_pools network Option.none page).params
        "include" = Option.some (PyParam.str "base_token,quote_token,dex") ∧
    getParam (api.network_pools network Option.none page).params "include" =
        Option.some (PyParam.str "base_token,quote_token,dex") ∧
    (GeckoTerminalAPI.mk Option.none).network_pools "eth" Option.none 1 =
      Request.mk "https://api.geckoterminal.com/api/v2/networks/eth/pools"
        "application/json"
        [("include", PyParam.str "base_token,quote_token,dex"),
         ("page", PyParam.int 1)] 30 := by
  refine ⟨rfl, rfl, rfl, rfl, rfl, rfl⟩

/-- C7: every serialized query parameter originates from an entry whose
value was not None, so None-valued parameters are never serialized; in
particular search_network_pool with network omitted sends exactly the query,
include and page parameters and no network parameter. -/
theorem C7_none_never_serialized (ps : List (String × PyParam))
    (api : GeckoTerminalAPI) (q : String) (inc : Option (List String))
    (page : Int) :
    (∀ p, p ∈ serializeParams ps →
      ∃ v, (p.1, v) ∈ ps ∧ v ≠ PyParam.none) ∧
    List.map Prod.fst
        (serializeParams
          (api.search_network_pool q Option.none inc page).params) =
      ["query", "include", "page"] := by
  constructor
  · induction ps with
    | nil =>
      intro p hp
      simp [serializeParams] at hp
    | cons hd tl ih =>
      intro p hp
      obtain ⟨k, v⟩ := hd
      cases v with
      | str s =>
        rcases List.mem_cons.mp hp with h | h
        · subst h
          exact ⟨PyParam.str s, List.mem_cons_self _ _, by simp⟩
        · rcases ih p h with ⟨w, hw, hne⟩
          exact ⟨w, List.mem_cons_of_mem _ hw, hne⟩
      | int n =>
        rcases List.mem_cons.mp hp with h | h
        · subst h
          exact ⟨PyParam.int n, List.mem_cons_self _ _, by simp⟩
        · rcases ih p h with ⟨w, hw, hne⟩
          exact ⟨w, List.mem_cons_of_mem _ hw, hne⟩
      | none =>
        rcases ih p hp with ⟨w, hw, hne⟩
        exact ⟨w, List.mem_cons_of_mem _ hw, hne⟩
  · rfl

/-- Witness for C7_none_never_serialized at a one-entry params list and the
concrete search call. -/
theorem C7_none_never_serialized_witness :
    (∃ v, (("a", v) ∈ [("a", PyParam.str "x")] ∧ v ≠ PyParam.none)) ∧
    List.map Prod.fst
        (serializeParams
          ((GeckoTerminalAPI.mk Option.none).search_network_pool "ETH"
            Option.none Option.none 1).params) =
      ["query", "include", "page"] := by
  constructor
  · exact (C7_none_never_serialized [("a", PyParam.str "x")]
      (GeckoTerminalAPI.mk Option.none) "ETH" Option.none 1).1
      ("a", "x") (by simp [serializeParams])
  · exact (C7_none_never_serialized [("a", PyParam.str "x")]
      (GeckoTerminalAPI.mk Option.none) "ETH" Option.none 1).2

/-- C8: networks, dexes, network_pools and network_dex_pools carry no page
guard: called with any keyword page value, in particular one above 10, they
emit no warning and the outgoing request carries the caller-supplied page
value unchanged. -/
theorem C8_unguarded_page (api : GeckoTerminalAPI) (network dex : String)
    (inc : Option (List String)) (page : Int) :
    ((networks_invoke api page true).1 = [] ∧
      getParam (networks_invoke api page true).2.params "page" =
        Option.some (PyParam.int page)) ∧
    ((dexes_invoke api network page true).1 = [] ∧
      getParam (dexes_invoke api network page true).2.params "page" =
        Option.some (PyParam.int page)) ∧
    ((network_pools_invoke api network inc page true).1 = [] ∧
      getParam (network_pools_invoke api network inc page true).2.params
          "page" = Option.some (PyParam.int page)) ∧
    ((network_dex_pools_invoke api network dex inc page true).1 = [] ∧
      getParam (network_dex_pools_invoke api network dex inc page true).2.params
          "page" = Option.some (PyParam.int page)) := by
  refine ⟨⟨rfl, rfl⟩, ⟨rfl, rfl⟩, ⟨rfl, rfl⟩, ⟨rfl, rfl⟩⟩

/-- C9: an explicitly empty include list is serialized as an empty include
string and does not trigger any endpoint default set; only omission
substitutes the defaults. -/
theorem C9_empty_include (api : GeckoTerminalAPI) (network dex address q : String)
    (addresses : List String) (netOpt : Option String) (page : Int) :
    getParam (api.trending_pools (Option.some []) page).params "include" =
        Option.some (PyParam.str "") ∧
    getParam (api.network_trending_pools network (Option.some []) page).params
        "include" = Option.some (PyParam.str "") ∧
    getParam (api.network_pool_address network address
        (Option.some [])).params "include" = Option.some (PyParam.str "") ∧
    getParam (api.network_pools_multi_address network addresses
        (Option.some [])).params "include" = Option.some (PyParam.str "") ∧
    getParam (api.network_pools network (Option.some []) page).params
        "include" = Option.some (PyParam.str "") ∧
    getParam (api.network_dex_pools network dex (Option.some []) page).params
        "include" = Option.some (PyParam.str "") ∧
    getParam (api.network_new_pools network (Option.some []) page).params
        "include" = Option.some (PyParam.str "") ∧
    getParam (api.new_pools (Option.some []) page).params "include" =
        Option.some (PyParam.str "") ∧
    getParam (api.search_network_pool q netOpt (Option.some []) page).params
        "include" = Option.some (PyParam.str "") ∧
    PyParam.str "" ≠ PyParam.str "base_token,quote_token,dex" := by
  refine ⟨rfl, rfl, rfl, rfl, rfl, rfl, rfl, rfl, ?_, by decide⟩
  cases netOpt <;> rfl

/-- C10: both guard thresholds are strict: a keyword page of exactly 10 and
exactly 30 keyword addresses emit no warning, and the guards can deviate
from silently proceeding only when page is at least 11 or the address list
has at least 31 elements. -/
theorem C10_strict_thresholds (api : GeckoTerminalAPI)
    (inc : Option (List String)) (p : Int) (addrs pos : List String) :
    (trending_pools_invoke api inc 10 true).1 = [] ∧
    Except.map Prod.fst
        (network_pools_multi_address_invoke api "eth"
          (List.replicate 30 "0xaa") inc true false) = Except.ok [] ∧
    (validate_page_check (Option.some p) ≠ [] → 11 ≤ p) ∧
    (validate_addresses_check (Option.some addrs) pos ≠
        AddrGuardOutcome.proceed [] → 31 ≤ addrs.length) := by
  refine ⟨rfl, rfl, ?_, ?_⟩
  · intro h
    by_contra hc
    apply h
    have hp : ¬ (10 : Int) < p := by omega
    simp [validate_page_check, hp]
  · intro h
    by_contra hc
    apply h
    have hlen : ¬ addrs.length > 30 := by omega
    simp [validate_addresses_check, hlen]

/-- Witness for C10_strict_thresholds at page 11 and a 31-element address
list. -/
theorem C10_strict_thresholds_witness :
    (11 : Int) ≤ 11 ∧ 31 ≤ (List.replicate 31 "0xaa").length := by
  constructor
  · exact (C10_strict_thresholds (GeckoTerminalAPI.mk Option.none)
      Option.none 11 (List.replicate 31 "0xaa") ["eth"]).2.2.1 (by decide)
  · exact (C10_strict_thresholds (GeckoTerminalAPI.mk Option.none)
      Option.none 11 (List.replicate 31 "0xaa") ["eth"]).2.2.2 (by decide)
